import Mathlib

set_option maxRecDepth 8000

namespace EmailBot

/-! Shallow embedding of `src/telegram_bot/bot.py` (class `EmailBot`):
the session store, the utterance normalizer, and the command pipeline
`process_email_command`.  External collaborators (the MCP tool bridge, the
Groq intent classifier, the reply generator and the stdlib HTML entity
decoder) are modelled as parameters of an `Env` record; everything else is
translated directly from the Python source. -/

/-- Python `pat in s` substring membership. -/
def containsSub (s pat : String) : Bool :=
  s.data.tails.any (fun t => pat.data.isPrefixOf t)

/-- Python `s.lower()` on ASCII input (structural, kernel-reducible). -/
def pyLower (s : String) : String := String.mk (s.data.map Char.toLower)

/-- Python `s.strip()`: drop whitespace from both ends. -/
def pyStrip (s : String) : String :=
  String.mk (((s.data.dropWhile Char.isWhitespace).reverse.dropWhile
    Char.isWhitespace).reverse)

/-- Python `s[:n]` on a short string. -/
def strTake (s : String) (n : Nat) : String := String.mk (s.data.take n)

/-- Python `s.startswith(pre)`. -/
def strStartsWith (s pre : String) : Bool := pre.data.isPrefixOf s.data

def strIsEmpty (s : String) : Bool := s.data.isEmpty

/-- The numeric value of a list of decimal digit characters. -/
def digitsToNat (l : List Char) : Nat :=
  l.foldl (fun n c => n * 10 + (c.toNat - 48)) 0

def strJoinSep (sep : String) : List String → String
  | [] => ""
  | x :: xs => xs.foldl (fun acc y => acc ++ sep ++ y) x

/-- A regex word character `\w`: ASCII letters, digits, underscore. -/
def isWordChar (c : Char) : Bool := c.isAlphanum || c == '_'

/-- Group consecutive characters by a predicate, fuelled so the recursion is
structural; each step consumes at least one character, so fuel `l.length`
is always enough. -/
def chunkByAux (p : Char → Bool) : Nat → List Char → List (Bool × List Char)
  | 0, _ => []
  | _ + 1, [] => []
  | fuel + 1, c :: rest =>
      let grp := rest.takeWhile (fun x => p x == p c)
      (p c, c :: grp) :: chunkByAux p fuel (rest.drop grp.length)

def chunkBy (p : Char → Bool) (l : List Char) : List (Bool × List Char) :=
  chunkByAux p l.length l

/-- The number-word substitution table of `_normalize_command`: each regex
`\bword\b` replacement, keyed by the (lower-case) word. -/
def numberWordSub (w : String) : String :=
  match w with
  | "one" => "1" | "two" => "2" | "three" => "3" | "four" => "4" | "five" => "5"
  | "six" => "6" | "seven" => "7" | "eight" => "8" | "nine" => "9" | "ten" => "10"
  | "first" => "1" | "second" => "2" | "third" => "3" | "fourth" => "4" | "fifth" => "5"
  | "sixth" => "6" | "seventh" => "7" | "eighth" => "8" | "ninth" => "9" | "tenth" => "10"
  | "to" => "2" | "too" => "2" | "tu" => "2" | "for" => "4" | "ate" => "8"
  | _ => w

/-- `EmailBot._normalize_command`: lower-case, then replace every whole-word
occurrence of a table key by its digit string.  The regex substitutions of
the source are word-bounded (`\b...\b`) and their replacements are digit
strings no pattern matches, so applying the table per maximal `\w`-run is
equivalent to the sequential `re.sub` passes. -/
def normalize_command (command : String) : String :=
  String.mk (((chunkBy isWordChar (pyLower command).data).map
    (fun br => if br.1 then (numberWordSub (String.mk br.2)).data else br.2)).flatten)

/-- `command.lower().strip()` applied after normalization, as in the source. -/
def commandLower (command : String) : String :=
  pyStrip (pyLower (normalize_command command))

/-- The maximal `\w`-runs of a string, in order. -/
def wordTokens (s : String) : List String :=
  (chunkBy isWordChar s.data).filterMap
    (fun br => if br.1 then some (String.mk br.2) else none)

/-- `re.search(r'\b(\d+)\b', s)`: the first maximal word-run consisting
entirely of digits, as a number. -/
def firstDigitToken (s : String) : Option Nat :=
  (wordTokens s).findSome?
    (fun w => if !(strIsEmpty w) && w.data.all Char.isDigit then
      some (digitsToNat w.data) else none)

/-- Python `s.split()`: the maximal whitespace-free runs. -/
def pySplit (s : String) : List String :=
  (chunkBy (fun c => !c.isWhitespace) s.data).filterMap
    (fun br => if br.1 then some (String.mk br.2) else none)

/-- `EmailBot._word_to_number` (returns `None` on a miss). -/
def wordToNumber (w : String) : Option Nat :=
  match pyLower w with
  | "one" => some 1 | "two" => some 2 | "three" => some 3 | "four" => some 4
  | "five" => some 5 | "six" => some 6 | "seven" => some 7 | "eight" => some 8
  | "nine" => some 9 | "ten" => some 10
  | "first" => some 1 | "second" => some 2 | "third" => some 3 | "fourth" => some 4
  | "fifth" => some 5 | "sixth" => some 6 | "seventh" => some 7 | "eighth" => some 8
  | "ninth" => some 9 | "tenth" => some 10
  | _ => none

/-- Python `str.isdigit` on ASCII input: non-empty and all digits. -/
def pyIsdigit (s : String) : Bool := !(strIsEmpty s) && s.data.all Char.isDigit

/-- A Python string-valued dict, as an ordered association list. -/
abbrev Dict := List (String × String)

def dget (d : Dict) (k : String) : Option String :=
  (d.find? (fun p => p.1 == k)).map (fun p => p.2)

def dgetD (d : Dict) (k v : String) : String := (dget d k).getD v

def hasKey (d : Dict) (k : String) : Bool := (dget d k).isSome

/-- Python dict assignment `d[k] = v`: replace in place, else append. -/
def dset (d : Dict) (k v : String) : Dict :=
  if hasKey d k then d.map (fun p => if p.1 == k then (k, v) else p) else d ++ [(k, v)]

/-- The `read_emails` map: string position keys to stored email dicts. -/
abbrev ReadMap := List (String × Dict)

def rget (m : ReadMap) (k : String) : Option Dict :=
  (m.find? (fun p => p.1 == k)).map (fun p => p.2)

def rhas (m : ReadMap) (k : String) : Bool := (rget m k).isSome

def rset (m : ReadMap) (k : String) (v : Dict) : ReadMap :=
  if rhas m k then m.map (fun p => if p.1 == k then (k, v) else p) else m ++ [(k, v)]

/-- The draft's `for_email_num` is an `int` on the explicit-number path and a
`str` on the last-read fallback path of the source. -/
inductive NumOrStr where
  | num (n : Nat)
  | str (s : String)
deriving DecidableEq, Repr

def showNumOrStr : NumOrStr → String
  | .num n => toString n
  | .str s => s

/-- The `pending_draft` dict built at the end of the draft branch; the
source's `"to"` key is spelt `toAddr` because `to` is reserved in Lean. -/
structure Draft where
  toAddr : String
  subject : String
  body : String
  account : String
  for_email_num : NumOrStr
deriving DecidableEq, Repr

/-- One user's context dict (`_get_ctx`). -/
structure Ctx where
  email_list : List Dict
  read_emails : ReadMap
  pending_draft : Option Draft
  last_action_email_num : Option String
deriving DecidableEq, Repr

/-- The fresh context created by `_get_ctx` / `clear_command`. -/
def initCtx : Ctx :=
  { email_list := [], read_emails := [], pending_draft := none,
    last_action_email_num := none }

/-- A value returned by `mcp_client.call_tool`: a list of email dicts or a
single dict. -/
inductive PyResult where
  | pylist (xs : List Dict)
  | pydict (d : Dict)
deriving DecidableEq, Repr

/-- The intent classifier's output after the `json.loads` parse-or-fallback
boundary: a well-formed `call_tool` decision, a well-formed non-tool
decision carrying its message, or unparseable raw text. -/
inductive Decision where
  | callTool (tool : String) (params : Dict) (message : String)
  | respond (message : String)
  | malformed (raw : String)
deriving DecidableEq, Repr

/-- The external collaborators visible to one `process_email_command` call:
the MCP tool bridge, the classifier's decision for this utterance, the
reply-body generator (`_generate_reply_body`, arguments in source order:
original from, subject, HTML-stripped body, hint) and the stdlib
`html.unescape`. -/
structure Env where
  callTool : String → Dict → PyResult
  classify : Decision
  genReply : String → String → String → String → String
  htmlUnescape : String → String

/-- The outcome of one `process_email_command` call: the response text, the
updated user context, and the trace of `call_tool` invocations made. -/
structure StepResult where
  response : String
  ctx : Ctx
  calls : List (String × Dict)
deriving DecidableEq, Repr

/-- The response produced by the outer `except` handler. -/
def sorryMsg : String := "Sorry, something went wrong. Please try again."

/-- `re.sub(r'<[^>]+>', ' ', text)`: each `<`, followed by one or more
non-`>` characters and a `>`, becomes a single space. -/
def removeTagsAux : Nat → List Char → List Char
  | 0, _ => []
  | _ + 1, [] => []
  | fuel + 1, c :: rest =>
      if c == '<' then
        let inside := rest.takeWhile (fun x => x != '>')
        let after := rest.drop inside.length
        if inside.isEmpty then c :: removeTagsAux fuel rest
        else
          match after with
          | '>' :: tail => ' ' :: removeTagsAux fuel tail
          | _ => c :: removeTagsAux fuel rest
      else c :: removeTagsAux fuel rest

def removeTags (s : String) : String := String.mk (removeTagsAux s.length s.data)

/-- `re.sub(r'\s+', ' ', s)`: collapse each whitespace run to one space. -/
def collapseWs (s : String) : String :=
  String.mk (((chunkBy Char.isWhitespace s.data).map
    (fun br => if br.1 then [' '] else br.2)).flatten)

/-- `EmailBot._strip_html`. -/
def strip_html (env : Env) (text : String) : String :=
  if strIsEmpty text then text
  else strTake (pyStrip (collapseWs (env.htmlUnescape (removeTags text)))) 800

/-- `EmailBot._parse_recipient`: the `<...>` capture of `re.search(r'<(.+?)>')`
is the text between the first `<` and the first `>` lying at least two
places after it; otherwise the stripped header when it contains `@`, else
the stripped header itself. -/
def parse_recipient (from_header : String) : String :=
  let cs := from_header.data
  let i := cs.findIdx (fun c => c == '<')
  let rest := cs.drop (i + 1)
  let j := (rest.drop 1).findIdx (fun c => c == '>')
  if i < cs.length && j + 1 < rest.length then
    String.mk (rest.take (j + 1))
  else if containsSub from_header "@" then from_header.trim
  else from_header.trim

/-- `EmailBot._format_email_content` on a dict result. -/
def format_email_content (env : Env) (d : Dict) : String :=
  if d.isEmpty || hasKey d "error" then
    "Error reading email: " ++ dgetD d "error" "Unknown error"
  else
    "From: " ++ dgetD d "from" "Unknown" ++ "\n" ++
    "Subject: " ++ dgetD d "subject" "No subject" ++ "\n\n" ++
    strip_html env (dgetD d "body" "No content")

/-- One numbered entry block of `_format_email_list` (1-based index). -/
def listEntryLine (i : Nat) (e : Dict) : String :=
  let from_addr := dgetD e "from" "Unknown"
  let from2 := if from_addr.length > 40 then strTake from_addr 40 ++ "..." else from_addr
  toString i ++ ". From: " ++ from2 ++ "\n   Subject: " ++
    dgetD e "subject" "No subject" ++ "\n\n"

/-- The entry blocks `_format_email_list` renders: one per element of
`emails[:min(len(emails), 10)]`. -/
def listEntries (emails : List Dict) : List String :=
  ((emails.take (min emails.length 10)).enum).map (fun p => listEntryLine (p.1 + 1) p.2)

/-- `EmailBot._format_email_list`. -/
def format_email_list (emails : List Dict) : String :=
  if emails.isEmpty then "You have no emails matching that query."
  else
    let num := min emails.length 10
    "Found " ++ toString emails.length ++ " emails. Showing top " ++ toString num ++
      ":\n\n" ++ String.join (listEntries emails) ++
      (if emails.length == 1 then
        "Say \x27read it\x27 or \x27read this email\x27 to read it."
      else "Say \x27read email number 1\x27 to read any email.")

/-- Python `str(tool_result)` on a string-valued dict. -/
def pyStrDict (d : Dict) : String :=
  "\x7b" ++ strJoinSep ", "
    (d.map (fun p => "\x27" ++ p.1 ++ "\x27: \x27" ++ p.2 ++ "\x27")) ++ "\x7d"

/-- The send-confirmation phrase list of step 1 of `process_email_command`. -/
def send_triggers : List String :=
  ["send reply", "send it", "yes send", "send this", "send the reply",
   "send that", "yes", "confirm", "go ahead", "send now"]

def isSendCmd (cl : String) : Bool := send_triggers.any (fun t => containsSub cl t)

/-- `is_read`: contains `read` and none of the draft/send verbs. -/
def isReadCmd (cl : String) : Bool :=
  containsSub cl "read" &&
    !(["draft", "reply", "respond", "send"].any (fun w => containsSub cl w))

def single_read_triggers : List String :=
  ["read it", "read this", "open it", "open this", "read the email",
   "read that", "read the mail"]

def isSingleReadTrigger (cl : String) : Bool :=
  single_read_triggers.any (fun t => containsSub cl t)

def read_skip_words : List String :=
  ["read", "email", "number", "the", "me", "please",
   "open", "show", "get", "fetch", "load", "mail", "a", "an"]

/-- The read branch's `email_number` extraction: a bare digit token first,
else a left-to-right scan of the split words, skipping the stop words,
for the first recognized number word. -/
def readNumberOf (cl : String) : Option Nat :=
  match firstDigitToken cl with
  | some n => some n
  | none =>
      (pySplit cl).findSome?
        (fun w => if read_skip_words.contains w then none else wordToNumber w)

def draft_triggers : List String :=
  ["draft", "reply to", "respond to", "write back", "write a reply", "compose"]

def isDraftCmd (cl : String) : Bool := draft_triggers.any (fun t => containsSub cl t)

def draft_skip_words : List String :=
  ["draft", "reply", "respond", "write", "compose", "email", "number", "mail",
   "a", "an", "the", "to", "for", "this", "that", "my", "me", "please"]

/-- `re.search(r'(?:email|number|mail|#)\s*(\d+)', cl)`: at the earliest
position, one of the four alternatives (tried in order) followed by
optional whitespace and at least one digit; the digits are the capture. -/
def explicitAltAt (l : List Char) : Option Nat :=
  ["email", "number", "mail", "#"].findSome? (fun alt =>
    if alt.data.isPrefixOf l then
      let rest := (l.drop alt.length).dropWhile Char.isWhitespace
      let ds := rest.takeWhile Char.isDigit
      if ds.isEmpty then none else some (digitsToNat ds)
    else none)

def explicitDraftNumAux : List Char → Option Nat
  | [] => none
  | c :: t =>
      match explicitAltAt (c :: t) with
      | some n => some n
      | none => explicitDraftNumAux t

def explicitDraftNum (cl : String) : Option Nat := explicitDraftNumAux cl.data

/-- The reply-hint pattern of the draft branch:
`(?:saying|that|message|reply with|respond with|tell them|write)\s+(.+)`;
the capture is everything after the (greedy, but backtrackable) run of
whitespace following the matched introducer. -/
def hintAltAt (l : List Char) : Option String :=
  ["saying", "that", "message", "reply with", "respond with", "tell them",
   "write"].findSome? (fun alt =>
    if alt.data.isPrefixOf l then
      let rest := l.drop alt.length
      let ws := rest.takeWhile Char.isWhitespace
      if ws.isEmpty then none
      else
        let h := rest.drop ws.length
        if h.isEmpty then
          if ws.length ≥ 2 then some (String.mk (rest.drop (ws.length - 1)))
          else none
        else some (String.mk h)
    else none)

def extractHintAux : List Char → Option String
  | [] => none
  | c :: t =>
      match hintAltAt (c :: t) with
      | some h => some h
      | none => extractHintAux t

/-- `reply_hint`: the captured trailing clause, or `""` when absent. -/
def extractHint (cl : String) : String := (extractHintAux cl.data).getD ""

/-- The account-routed send tool of step 1. -/
def sendToolFor (account : String) : String :=
  if account == "icloud" then "send_icloud_email" else "send_gmail_email"

/-- The keyword arguments of the send call. -/
def sendArgs (draft : Draft) : Dict :=
  [("to", draft.toAddr), ("subject", draft.subject), ("body", draft.body)]

/-- Step 1 of `process_email_command`: the pending draft is sent through the
account-selected tool, `pending_draft` is cleared unconditionally, and only
then is an error-shaped result turned into a failure message. -/
def sendBranch (env : Env) (ctx : Ctx) : StepResult :=
  match ctx.pending_draft with
  | some draft =>
      match env.callTool (sendToolFor draft.account) (sendArgs draft) with
      | .pydict d =>
          match dget d "error" with
          | some e =>
              { response := "Failed to send: " ++ e,
                ctx := { ctx with pending_draft := none },
                calls := [(sendToolFor draft.account, sendArgs draft)] }
          | none =>
              { response := "✅ Reply sent to " ++ draft.toAddr ++ "!",
                ctx := { ctx with pending_draft := none },
                calls := [(sendToolFor draft.account, sendArgs draft)] }
      | .pylist _ =>
          { response := "✅ Reply sent to " ++ draft.toAddr ++ "!",
            ctx := { ctx with pending_draft := none },
            calls := [(sendToolFor draft.account, sendArgs draft)] }
  | none =>
      { response := "No pending draft to send. Say \x27draft a reply\x27 first.",
        ctx := ctx, calls := [] }

/-- `account = "icloud" if email_id.isdigit() else "gmail"`. -/
def accountFor (email_id : String) : String :=
  if pyIsdigit email_id then "icloud" else "gmail"

/-- The account-routed read tool of step 3. -/
def readToolFor (email_id : String) : String :=
  if accountFor email_id == "icloud" then "read_icloud_email"
  else "read_gmail_email"

/-- The stored read result: the tool's dict enriched with id, account and
1-based list number. -/
def enrich (d : Dict) (email_id : String) (n : Nat) : Dict :=
  dset (dset (dset d "id" email_id) "account" (accountFor email_id))
    "list_number" (toString n)

/-- The shared read flow for a bounds-checked 1-based position `n` and its
list entry `target`: a missing `"id"` key or a list-shaped tool result
raises in the source and surfaces as the outer handler's apology; a clean
dict result is enriched and cached under `str(n)`. -/
def performRead (env : Env) (ctx : Ctx) (n : Nat) (target : Dict) : StepResult :=
  match dget target "id" with
  | none => { response := sorryMsg, ctx := ctx, calls := [] }
  | some email_id =>
      match env.callTool (readToolFor email_id) [("email_id", email_id)] with
      | .pydict d =>
          if hasKey d "error" then
            { response := format_email_content env d, ctx := ctx,
              calls := [(readToolFor email_id, [("email_id", email_id)])] }
          else
            { response := format_email_content env (enrich d email_id n),
              ctx := { ctx with
                read_emails := rset ctx.read_emails (toString n) (enrich d email_id n),
                last_action_email_num := some (toString n) },
              calls := [(readToolFor email_id, [("email_id", email_id)])] }
      | .pylist _ =>
          { response := sorryMsg, ctx := ctx,
            calls := [(readToolFor email_id, [("email_id", email_id)])] }

/-- Step 3 of `process_email_command` (entered when `is_read` holds and the
list is non-empty): the single-email auto-read, else digit/word number
extraction, the Python truthiness test on the number, the bounds check, and
the read itself. -/
def readBranch (env : Env) (ctx : Ctx) (cl : String) : StepResult :=
  if ctx.email_list.length == 1 &&
      (isSingleReadTrigger cl || (firstDigitToken cl).isNone) then
    match ctx.email_list.head? with
    | some target => performRead env ctx 1 target
    | none => { response := sorryMsg, ctx := ctx, calls := [] }
  else
    match readNumberOf cl with
    | some n =>
        if n == 0 then
          { response := "Please specify which email number to read.",
            ctx := ctx, calls := [] }
        else if n - 1 < ctx.email_list.length then
          performRead env ctx n (ctx.email_list.getD (n - 1) [])
        else
          { response := "Only " ++ toString ctx.email_list.length ++
              " emails in list.", ctx := ctx, calls := [] }
    | none =>
        { response := "Please specify which email number to read.",
          ctx := ctx, calls := [] }

/-- The last-read fallback of the draft branch: `last_action_email_num` must
be truthy and present in `read_emails`. -/
def lastFallback (ctx : Ctx) : Option (NumOrStr × Dict) :=
  match ctx.last_action_email_num with
  | some s =>
      if strIsEmpty s then none
      else
        match rget ctx.read_emails s with
        | some d => some (.str s, d)
        | none => none
  | none => none

/-- The draft branch's `target_email_num` extraction: the explicit
`(email|number|mail|#)` pattern first, else the stop-word-filtered word
scan. -/
def extractedDraftNum (cl : String) : Option Nat :=
  match explicitDraftNum cl with
  | some n => some n
  | none =>
      (pySplit cl).findSome?
        (fun w => if draft_skip_words.contains w then none else wordToNumber w)

/-- The draft branch's target choice: a truthy extracted number present in
`read_emails` wins; otherwise the last-read fallback. -/
def draftTarget (ctx : Ctx) (cl : String) : Option (NumOrStr × Dict) :=
  match extractedDraftNum cl with
  | some n =>
      if n != 0 then
        match rget ctx.read_emails (toString n) with
        | some d => some (.num n, d)
        | none => lastFallback ctx
      else lastFallback ctx
  | none => lastFallback ctx

/-- The "read first" clarification of the draft branch. -/
def readFirstMsg : String :=
  "Please read an email first.\nSay \x27read email number 1\x27 then \x27draft a reply\x27."

/-- The draft record built from the chosen target's cached email data. -/
def buildDraft (env : Env) (cl : String) (tnum : NumOrStr) (data : Dict) : Draft :=
  let from_addr := dgetD data "from" ""
  let subject := dgetD data "subject" ""
  let body := dgetD data "body" ""
  let account := dgetD data "account" "gmail"
  let reply_subject :=
    if strStartsWith (pyLower subject) "re:" then subject else "Re: " ++ subject
  { toAddr := parse_recipient from_addr, subject := reply_subject,
    body := env.genReply from_addr subject (strip_html env body) (extractHint cl),
    account := account, for_email_num := tnum }

/-- Step 4 of `process_email_command`: target resolution (explicit number,
word number, last-read fallback, else the clarification), then a complete
overwrite of `pending_draft` and the draft preview response. -/
def draftBranch (env : Env) (ctx : Ctx) (cl : String) : StepResult :=
  match draftTarget ctx cl with
  | none => { response := readFirstMsg, ctx := ctx, calls := [] }
  | some (tnum, data) =>
      let draft := buildDraft env cl tnum data
      { response := "📧 DRAFT REPLY (email #" ++ showNumOrStr tnum ++ "):\n\n" ++
          "To: " ++ draft.toAddr ++ "\nSubject: " ++ draft.subject ++ "\n\n" ++
          draft.body ++ "\n\n---\n" ++
          "Say \x27send reply\x27 to send or \x27cancel\x27 to cancel.",
        ctx := { ctx with pending_draft := some draft }, calls := [] }

/-- Step 5 of `process_email_command`: the classifier decision is executed;
a non-empty list result replaces `email_list` and clears the three
positional fields in the same update; other shapes leave the session
untouched. -/
def deferBranch (env : Env) (ctx : Ctx) : StepResult :=
  match env.classify with
  | .malformed raw => { response := raw, ctx := ctx, calls := [] }
  | .respond m => { response := m, ctx := ctx, calls := [] }
  | .callTool tool params _ =>
      match env.callTool tool params with
      | .pylist xs =>
          if xs.isEmpty then
            { response := "No emails found.", ctx := ctx, calls := [(tool, params)] }
          else
            { response := format_email_list xs,
              ctx := { email_list := xs, read_emails := [],
                       pending_draft := none, last_action_email_num := none },
              calls := [(tool, params)] }
      | .pydict d =>
          if hasKey d "error" then
            { response := "Error: " ++ dgetD d "error" "", ctx := ctx,
              calls := [(tool, params)] }
          else if dget d "status" == some "sent" then
            { response := "✅ Email sent!", ctx := ctx, calls := [(tool, params)] }
          else
            { response := pyStrDict d, ctx := ctx, calls := [(tool, params)] }

/-- The priority dispatch of `process_email_command` over the normalized,
lower-cased, stripped command: send, cancel-with-draft, read-with-list,
draft, defer.  A `cancel` with no pending draft falls through, exactly as
in the source. -/
def dispatch (env : Env) (ctx : Ctx) (cl : String) : StepResult :=
  if isSendCmd cl then sendBranch env ctx
  else if containsSub cl "cancel" && ctx.pending_draft.isSome then
    { response := "❌ Draft cancelled.",
      ctx := { ctx with pending_draft := none }, calls := [] }
  else if isReadCmd cl && !ctx.email_list.isEmpty then readBranch env ctx cl
  else if isDraftCmd cl then draftBranch env ctx cl
  else deferBranch env ctx

/-- `EmailBot.process_email_command`: normalize, lower, strip, dispatch. -/
def process_email_command (env : Env) (ctx : Ctx) (command : String) : StepResult :=
  dispatch env ctx (commandLower command)

/-- The two provider send tools. -/
def isSendTool (t : String) : Bool := t == "send_gmail_email" || t == "send_icloud_email"

/-- The classifier decision does not name a send tool. -/
def classifierSendFree : Decision → Bool
  | .callTool t _ _ => !isSendTool t
  | .respond _ => true
  | .malformed _ => true

/-- The command is handled by one of the four local branches rather than
deferred to the classifier: exactly the guards of `dispatch`. -/
def locallyHandled (ctx : Ctx) (cl : String) : Bool :=
  isSendCmd cl || (containsSub cl "cancel" && ctx.pending_draft.isSome) ||
  (isReadCmd cl && !ctx.email_list.isEmpty) || isDraftCmd cl

/-! Concrete sessions, environments and data used by the per-claim
witnesses and counterexamples. -/

def sampleDraft : Draft :=
  { toAddr := "a@b.c", subject := "Hi", body := "x", account := "gmail",
    for_email_num := .num 1 }

def sampleList3 : List Dict :=
  [[("id", "abc"), ("from", "A"), ("subject", "S1")],
   [("id", "123"), ("from", "B"), ("subject", "S2")],
   [("id", "def"), ("from", "C"), ("subject", "S3")]]

def readDict1 : Dict :=
  [("from", "Alice <alice@x.com>"), ("subject", "Hello"), ("body", "B1"),
   ("account", "gmail"), ("id", "abc"), ("list_number", "1")]

def readDict2 : Dict :=
  [("from", "Bob <b@y.com>"), ("subject", "news"), ("body", "B2"),
   ("account", "icloud"), ("id", "123"), ("list_number", "2")]

def respondEnv : Env :=
  { callTool := fun _ _ => .pydict [("from", "A"), ("subject", "S"), ("body", "B")],
    classify := .respond "ok", genReply := fun _ _ _ _ => "generated reply",
    htmlUnescape := id }

def c1Env : Env :=
  { respondEnv with
      callTool := fun _ _ => .pydict [("status", "sent")],
      classify := .callTool "send_gmail_email"
        [("to", "john@x.com"), ("subject", "Hello"), ("body", "hello")] "Sending..." }

def c1wCtx : Ctx := { initCtx with email_list := sampleList3 }

def c2Ctx : Ctx := { initCtx with pending_draft := some sampleDraft }

def c2Env : Env :=
  { respondEnv with callTool := fun _ _ => .pydict [("error", "boom")] }

def c3Env : Env :=
  { respondEnv with
      callTool := fun _ _ => .pylist [[("id", "x"), ("from", "F"), ("subject", "S")]],
      classify := .callTool "list_gmail_emails"
        [("max_results", "10"), ("query", "category:primary")] "Fetching Gmail..." }

def c3Ctx : Ctx :=
  { email_list := sampleList3, read_emails := [("1", readDict1)],
    pending_draft := some sampleDraft, last_action_email_num := some "1" }

def c5Ctx : Ctx :=
  { initCtx with
      email_list := sampleList3, read_emails := [("1", readDict1)],
      last_action_email_num := some "1" }

def c7Ctx : Ctx := { initCtx with email_list := sampleList3.take 2 }

def c8Ctx : Ctx :=
  { initCtx with
      email_list := sampleList3,
      read_emails := [("1", readDict1), ("2", readDict2)],
      last_action_email_num := some "2" }

def c10Ctx : Ctx :=
  { initCtx with
      email_list :=
        (List.range 12).map (fun i => [("id", "id" ++ toString i), ("from", "F"),
          ("subject", "S")]) }

/-! Helper lemmas about which tools each branch can invoke. -/

theorem readToolFor_not_send (email_id : String) :
    isSendTool (readToolFor email_id) = false := by
  unfold readToolFor accountFor isSendTool
  split <;> simp

theorem performRead_sendFree (env : Env) (ctx : Ctx) (n : Nat) (target : Dict) :
    ((performRead env ctx n target).calls.all (fun c => !isSendTool c.1)) = true := by
  unfold performRead
  split
  · rfl
  · split
    · split <;> simp [readToolFor_not_send]
    · simp [readToolFor_not_send]

theorem readBranch_sendFree (env : Env) (ctx : Ctx) (cl : String) :
    ((readBranch env ctx cl).calls.all (fun c => !isSendTool c.1)) = true := by
  unfold readBranch
  split
  · split
    · exact performRead_sendFree ..
    · rfl
  · split
    · split
      · rfl
      · split
        · exact performRead_sendFree ..
        · rfl
    · rfl

theorem draftBranch_calls (env : Env) (ctx : Ctx) (cl : String) :
    (draftBranch env ctx cl).calls = [] := by
  unfold draftBranch
  split <;> rfl

theorem sendBranch_noDraft (env : Env) (ctx : Ctx) (h : ctx.pending_draft = none) :
    sendBranch env ctx =
      { response := "No pending draft to send. Say \x27draft a reply\x27 first.",
        ctx := ctx, calls := [] } := by
  unfold sendBranch
  rw [h]

/-- C1 (counterexample): with no pending draft and the utterance "hello",
which contains no confirmation phrase, processing still invokes the
provider send tool `send_gmail_email`, because the Defer path executes
whatever tool the intent classifier returns. -/
theorem c1_counterexample :
    initCtx.pending_draft = none ∧
    isSendCmd (commandLower "hello") = false ∧
    ((process_email_command c1Env initCtx "hello").calls.any
      (fun c => isSendTool c.1)) = true := by
  refine ⟨rfl, by decide, by decide⟩

/-- C1 (amended): with no pending draft, processing an utterance never
invokes a provider send tool through the local branches; a send can only
happen when the intent classifier itself returns a send-tool decision on
the Defer path. -/
theorem deferBranch_sendFree (env : Env) (ctx : Ctx)
    (h2 : classifierSendFree env.classify = true) :
    ((deferBranch env ctx).calls.all (fun c => !isSendTool c.1)) = true := by
  unfold deferBranch
  cases hc : env.classify with
  | malformed raw => rfl
  | respond m => rfl
  | callTool t p m =>
      rw [hc] at h2
      simp only [classifierSendFree] at h2
      cases hr : env.callTool t p with
      | pylist xs => by_cases hxs : xs = [] <;> simp [hr, hxs, h2]
      | pydict d =>
          by_cases he : hasKey d "error" = true
          · simp [hr, he, h2]
          · by_cases hs : dget d "status" = some "sent" <;> simp [hr, he, hs, h2]

theorem c1_theorem (env : Env) (ctx : Ctx) (command : String)
    (h1 : ctx.pending_draft = none)
    (h2 : classifierSendFree env.classify = true) :
    ((process_email_command env ctx command).calls.all
      (fun c => !isSendTool c.1)) = true := by
  unfold process_email_command dispatch
  split
  · rw [sendBranch_noDraft env ctx h1]; rfl
  · split
    · rfl
    · split
      · exact readBranch_sendFree ..
      · split
        · rw [draftBranch_calls]; rfl
        · exact deferBranch_sendFree env ctx h2

theorem c1_witness :
    c1wCtx.pending_draft = none ∧
    classifierSendFree respondEnv.classify = true ∧
    ((process_email_command respondEnv c1wCtx "read email 1").calls.all
      (fun c => !isSendTool c.1)) = true :=
  ⟨rfl, rfl, c1_theorem respondEnv c1wCtx "read email 1" rfl rfl⟩

/-- C2 (counterexample): with a pending draft and a provider error on
"send it", the draft is NOT left intact: `pending_draft` is cleared before
the error check, so the session ends with no draft to retry. -/
theorem c2_counterexample :
    c2Ctx.pending_draft = some sampleDraft ∧
    (process_email_command c2Env c2Ctx "send it").response = "Failed to send: boom" ∧
    (process_email_command c2Env c2Ctx "send it").ctx.pending_draft = none := by
  refine ⟨rfl, rfl, rfl⟩

/-- C2 (amended): when the user confirms sending and the provider returns
an error-shaped result, the session's `pending_draft` is cleared (the
source clears it before inspecting the result, so no retry is possible)
and the message "Failed to send: " followed by the provider's error text is
returned; the other session fields are unchanged. -/
theorem c2_theorem (env : Env) (ctx : Ctx) (command : String) (draft : Draft)
    (d : Dict) (e : String)
    (h1 : ctx.pending_draft = some draft)
    (h2 : isSendCmd (commandLower command) = true)
    (h3 : env.callTool (sendToolFor draft.account) (sendArgs draft) = .pydict d)
    (h4 : dget d "error" = some e) :
    process_email_command env ctx command =
      { response := "Failed to send: " ++ e,
        ctx := { ctx with pending_draft := none },
        calls := [(sendToolFor draft.account, sendArgs draft)] } := by
  unfold process_email_command dispatch
  rw [if_pos h2]
  unfold sendBranch
  rw [h1]
  dsimp only
  simp only [h3, h4]

theorem c2_witness :
    c2Ctx.pending_draft = some sampleDraft ∧
    isSendCmd (commandLower "send it") = true ∧
    process_email_command c2Env c2Ctx "send it" =
      { response := "Failed to send: boom",
        ctx := { c2Ctx with pending_draft := none },
        calls := [("send_gmail_email",
          [("to", "a@b.c"), ("subject", "Hi"), ("body", "x")])] } :=
  ⟨rfl, by decide,
    c2_theorem c2Env c2Ctx "send it" sampleDraft [("error", "boom")] "boom"
      rfl (by decide) rfl rfl⟩

/-- C3: whenever an utterance is not handled locally and the classifier's
tool call returns a non-empty list, the new list replaces `email_list` and,
in the same update, `read_emails` becomes empty, `pending_draft` becomes
null and `last_action_email_num` becomes null — regardless of the prior
session state. -/
theorem c3_theorem (env : Env) (ctx : Ctx) (command : String) (t : String)
    (p : Dict) (m : String) (xs : List Dict)
    (h1 : locallyHandled ctx (commandLower command) = false)
    (h2 : env.classify = .callTool t p m)
    (h3 : env.callTool t p = .pylist xs)
    (h4 : xs.isEmpty = false) :
    (process_email_command env ctx command).ctx =
      { email_list := xs, read_emails := [], pending_draft := none,
        last_action_email_num := none } := by
  unfold locallyHandled at h1
  simp only [Bool.or_eq_false_iff] at h1
  obtain ⟨⟨⟨ha, hb⟩, hc⟩, hd⟩ := h1
  unfold process_email_command dispatch
  rw [ha, hb, hc, hd]
  simp only [Bool.false_eq_true, if_false]
  unfold deferBranch
  rw [h2]
  dsimp only
  rw [h3]
  dsimp only
  rw [h4]
  rfl

theorem c3_witness :
    locallyHandled c3Ctx (commandLower "check my gmail") = false ∧
    (process_email_command c3Env c3Ctx "check my gmail").ctx =
      { email_list := [[("id", "x"), ("from", "F"), ("subject", "S")]],
        read_emails := [], pending_draft := none,
        last_action_email_num := none } :=
  ⟨by decide,
    c3_theorem c3Env c3Ctx "check my gmail" "list_gmail_emails"
      [("max_results", "10"), ("query", "category:primary")] "Fetching Gmail..."
      [[("id", "x"), ("from", "F"), ("subject", "S")]] (by decide) rfl rfl rfl⟩

/-- C4: with no pending draft, a send-trigger utterance is answered locally
with the "no pending draft" response; no tool is called, the session is
unchanged, and nothing falls through to the intent classifier. -/
theorem c4_theorem (env : Env) (ctx : Ctx) (command : String)
    (h1 : ctx.pending_draft = none)
    (h2 : isSendCmd (commandLower command) = true) :
    process_email_command env ctx command =
      { response := "No pending draft to send. Say \x27draft a reply\x27 first.",
        ctx := ctx, calls := [] } := by
  unfold process_email_command dispatch
  rw [if_pos h2]
  exact sendBranch_noDraft env ctx h1

theorem c4_witness :
    initCtx.pending_draft = none ∧
    isSendCmd (commandLower "send reply") = true ∧
    process_email_command respondEnv initCtx "send reply" =
      { response := "No pending draft to send. Say \x27draft a reply\x27 first.",
        ctx := initCtx, calls := [] } :=
  ⟨rfl, by decide, c4_theorem respondEnv initCtx "send reply" rfl (by decide)⟩

/-- C5 (counterexample): in a session whose `read_emails` holds only
position 1 (also the last read), the request "draft a reply for email 3"
resolves the explicit position 3, which is absent from `read_emails`; yet
the code silently substitutes the last-read email 1 as the draft target
instead of returning the "read first" clarification. -/
theorem c5_counterexample :
    explicitDraftNum (commandLower "draft a reply for email 3") = some 3 ∧
    rhas c5Ctx.read_emails "3" = false ∧
    ((process_email_command respondEnv c5Ctx "draft a reply for email 3").ctx.pending_draft.map
      Draft.for_email_num) = some (.str "1") ∧
    (process_email_command respondEnv c5Ctx "draft a reply for email 3").response ≠
      readFirstMsg := by
  refine ⟨by decide, rfl, rfl, by decide⟩

/-- C5 (amended): a draft request with an explicit target position absent
from `read_emails` returns the "read first" clarification and creates no
draft only when the last-read fallback is also unavailable; otherwise the
code substitutes the last-read email.  Under the additional hypothesis that
the fallback is unavailable, the clarification is returned and the session
is entirely unchanged. -/
theorem c5_theorem (env : Env) (ctx : Ctx) (command : String) (n : Nat)
    (h1 : isSendCmd (commandLower command) = false)
    (h2 : (containsSub (commandLower command) "cancel" && ctx.pending_draft.isSome) = false)
    (h3 : (isReadCmd (commandLower command) && !ctx.email_list.isEmpty) = false)
    (h4 : isDraftCmd (commandLower command) = true)
    (h5 : explicitDraftNum (commandLower command) = some n)
    (h6 : (n == 0) = false)
    (h7 : rget ctx.read_emails (toString n) = none)
    (h8 : lastFallback ctx = none) :
    process_email_command env ctx command =
      { response := readFirstMsg, ctx := ctx, calls := [] } := by
  have he : extractedDraftNum (commandLower command) = some n := by
    unfold extractedDraftNum
    rw [h5]
  have hne : (n != 0) = true := by
    simp only [bne, h6]
    rfl
  unfold process_email_command dispatch
  rw [h1, h2, h3, h4]
  simp only [Bool.false_eq_true, if_false, if_true]
  unfold draftBranch draftTarget
  rw [he]
  dsimp only
  rw [hne]
  simp only [if_true]
  rw [h7]
  dsimp only
  rw [h8]

theorem c5_witness :
    explicitDraftNum (commandLower "draft a reply for email 3") = some 3 ∧
    rget initCtx.read_emails "3" = none ∧
    lastFallback initCtx = none ∧
    process_email_command respondEnv initCtx "draft a reply for email 3" =
      { response := readFirstMsg, ctx := initCtx, calls := [] } :=
  ⟨by decide, rfl, rfl,
    c5_theorem respondEnv initCtx "draft a reply for email 3" 3
      (by decide) (by decide) (by decide) (by decide) (by decide) (by decide)
      rfl rfl⟩

/-- C6 (counterexample): with no pending draft, the utterance "cancel" is
not a local no-op: it falls through to the intent classifier, and when the
classifier answers with a list tool call the session is mutated. -/
theorem c6_counterexample :
    initCtx.pending_draft = none ∧
    containsSub (commandLower "cancel") "cancel" = true ∧
    (process_email_command c3Env initCtx "cancel").ctx ≠ initCtx := by
  refine ⟨rfl, by decide, by decide⟩

/-- C6 (amended): with no pending draft, an utterance containing "cancel"
is not handled by the cancel branch: it falls through to the intent
classifier.  The session is unchanged and the interaction is a no-op
response exactly when the classifier returns a plain respond decision; a
tool-calling decision may mutate the session. -/
theorem c6_theorem (env : Env) (ctx : Ctx) (command : String) (m : String)
    (h1 : ctx.pending_draft = none)
    (_h2 : containsSub (commandLower command) "cancel" = true)
    (h3 : isSendCmd (commandLower command) = false)
    (h4 : (isReadCmd (commandLower command) && !ctx.email_list.isEmpty) = false)
    (h5 : isDraftCmd (commandLower command) = false)
    (h6 : env.classify = .respond m) :
    process_email_command env ctx command =
      { response := m, ctx := ctx, calls := [] } := by
  unfold process_email_command dispatch
  rw [h3, h1]
  simp only [Option.isSome_none, Bool.and_false, Bool.false_eq_true, if_false]
  rw [h4, h5]
  simp only [Bool.false_eq_true, if_false]
  unfold deferBranch
  rw [h6]

theorem c6_witness :
    initCtx.pending_draft = none ∧
    containsSub (commandLower "cancel") "cancel" = true ∧
    process_email_command respondEnv initCtx "cancel" =
      { response := "ok", ctx := initCtx, calls := [] } :=
  ⟨rfl, by decide,
    c6_theorem respondEnv initCtx "cancel" "ok" rfl (by decide) (by decide)
      (by decide) (by decide) rfl⟩

/-- The multi-email read path: when the read branch is reached, the
single-email auto-read does not apply and a truthy in-bounds number is
resolved, processing is exactly `performRead` on the n-th stored entry. -/
theorem read_multi_path (env : Env) (ctx : Ctx) (command : String) (n : Nat)
    (h1 : isSendCmd (commandLower command) = false)
    (h2 : (containsSub (commandLower command) "cancel" && ctx.pending_draft.isSome) = false)
    (h3 : isReadCmd (commandLower command) = true)
    (h4 : ctx.email_list.isEmpty = false)
    (h5 : (ctx.email_list.length == 1 &&
        (isSingleReadTrigger (commandLower command) ||
          (firstDigitToken (commandLower command)).isNone)) = false)
    (h6 : readNumberOf (commandLower command) = some n)
    (h7 : (n == 0) = false)
    (h8 : n - 1 < ctx.email_list.length) :
    process_email_command env ctx command =
      performRead env ctx n (ctx.email_list.getD (n - 1) []) := by
  unfold process_email_command dispatch
  rw [h1, h2]
  simp only [Bool.false_eq_true, if_false]
  rw [h3, h4]
  simp only [Bool.not_false, Bool.and_self, if_true]
  unfold readBranch
  rw [h5]
  simp only [Bool.false_eq_true, if_false]
  rw [h6]
  dsimp only
  rw [h7]
  simp only [Bool.false_eq_true, if_false]
  rw [if_pos h8]

/-- C7 (counterexample): with a 2-element list, "read email 0" resolves the
out-of-range position 0 (0 < 1), and the code answers with the "please
specify" clarification rather than an apologetic bounds message; no read
tool is called and the session is unchanged. -/
theorem c7_counterexample :
    readNumberOf (commandLower "read email 0") = some 0 ∧
    (process_email_command respondEnv c7Ctx "read email 0").response =
      "Please specify which email number to read." ∧
    (process_email_command respondEnv c7Ctx "read email 0").response ≠
      "Only 2 emails in list." ∧
    (process_email_command respondEnv c7Ctx "read email 0").ctx = c7Ctx ∧
    (process_email_command respondEnv c7Ctx "read email 0").calls = [] := by
  refine ⟨by decide, rfl, by decide, rfl, rfl⟩

/-- C7 (amended): an out-of-range resolved read position never calls a read
tool and leaves the session unchanged; for n greater than the list length
the apologetic bounds message is returned, while for n = 0 the code's
truthiness test treats the number as unresolved and returns the
"please specify" clarification instead. -/
theorem c7_theorem (env : Env) (ctx : Ctx) (command : String) (n : Nat)
    (h1 : isSendCmd (commandLower command) = false)
    (h2 : (containsSub (commandLower command) "cancel" && ctx.pending_draft.isSome) = false)
    (h3 : isReadCmd (commandLower command) = true)
    (h4 : ctx.email_list.isEmpty = false)
    (h5 : (ctx.email_list.length == 1 &&
        (isSingleReadTrigger (commandLower command) ||
          (firstDigitToken (commandLower command)).isNone)) = false)
    (h6 : readNumberOf (commandLower command) = some n)
    (h7 : n = 0 ∨ ctx.email_list.length < n) :
    process_email_command env ctx command =
      { response := if n = 0 then "Please specify which email number to read."
          else "Only " ++ toString ctx.email_list.length ++ " emails in list.",
        ctx := ctx, calls := [] } := by
  unfold process_email_command dispatch
  rw [h1, h2]
  simp only [Bool.false_eq_true, if_false]
  rw [h3, h4]
  simp only [Bool.not_false, Bool.and_self, if_true]
  unfold readBranch
  rw [h5]
  simp only [Bool.false_eq_true, if_false]
  rw [h6]
  dsimp only
  rcases h7 with h0 | hgt
  · subst h0
    rfl
  · have h70 : (n == 0) = false := by simp; omega
    rw [h70]
    simp only [Bool.false_eq_true, if_false]
    have hnl : ¬ (n - 1 < ctx.email_list.length) := by omega
    rw [if_neg hnl]
    have hn0 : ¬ (n = 0) := by omega
    rw [if_neg hn0]

theorem c7_witness :
    readNumberOf (commandLower "read email 3") = some 3 ∧
    c7Ctx.email_list.length < 3 ∧
    process_email_command respondEnv c7Ctx "read email 3" =
      { response := "Only 2 emails in list.", ctx := c7Ctx, calls := [] } := by
  refine ⟨by decide, by decide, ?_⟩
  have := c7_theorem respondEnv c7Ctx "read email 3" 3 (by decide) (by decide)
    (by decide) (by decide) (by decide) (by decide) (Or.inr (by decide))
  simpa using this

/-- The outcome of a draft request whose explicit target position is cached
in `read_emails`: `pending_draft` is overwritten with the draft built from
that cached entry and the draft preview is returned. -/
theorem draft_request_explicit (env : Env) (ctx : Ctx) (command : String)
    (n : Nat) (data : Dict)
    (h1 : isSendCmd (commandLower command) = false)
    (h2 : (containsSub (commandLower command) "cancel" && ctx.pending_draft.isSome) = false)
    (h3 : (isReadCmd (commandLower command) && !ctx.email_list.isEmpty) = false)
    (h4 : isDraftCmd (commandLower command) = true)
    (h5 : explicitDraftNum (commandLower command) = some n)
    (h6 : (n == 0) = false)
    (h7 : rget ctx.read_emails (toString n) = some data) :
    process_email_command env ctx command =
      { response := "📧 DRAFT REPLY (email #" ++ toString n ++ "):\n\n" ++
          "To: " ++ (buildDraft env (commandLower command) (.num n) data).toAddr ++
          "\nSubject: " ++ (buildDraft env (commandLower command) (.num n) data).subject ++
          "\n\n" ++ (buildDraft env (commandLower command) (.num n) data).body ++
          "\n\n---\n" ++
          "Say \x27send reply\x27 to send or \x27cancel\x27 to cancel.",
        ctx := { ctx with
          pending_draft := some (buildDraft env (commandLower command) (.num n) data) },
        calls := [] } := by
  have he : extractedDraftNum (commandLower command) = some n := by
    unfold extractedDraftNum
    rw [h5]
  have hne : (n != 0) = true := by
    simp only [bne, h6]
    rfl
  unfold process_email_command dispatch
  rw [h1, h2, h3, h4]
  simp only [Bool.false_eq_true, if_false, if_true]
  unfold draftBranch draftTarget
  rw [he]
  dsimp only
  rw [hne]
  simp only [if_true]
  rw [h7]
  rfl

/-- C8: two successive successful draft requests for different explicit
positions leave `pending_draft` holding exactly the draft built from the
second position's cached email: its `for_email_num` is the second position
and every field (to, subject, body, account) is derived solely from the
second request's target data; no field of the first draft persists. -/
theorem c8_theorem (env1 env2 : Env) (ctx : Ctx) (cmd1 cmd2 : String)
    (p1 p2 : Nat) (data1 data2 : Dict)
    (h11 : isSendCmd (commandLower cmd1) = false)
    (h12 : (containsSub (commandLower cmd1) "cancel" && ctx.pending_draft.isSome) = false)
    (h13 : (isReadCmd (commandLower cmd1) && !ctx.email_list.isEmpty) = false)
    (h14 : isDraftCmd (commandLower cmd1) = true)
    (h15 : explicitDraftNum (commandLower cmd1) = some p1)
    (h16 : (p1 == 0) = false)
    (h17 : rget ctx.read_emails (toString p1) = some data1)
    (h21 : isSendCmd (commandLower cmd2) = false)
    (h22 : containsSub (commandLower cmd2) "cancel" = false)
    (h23 : (isReadCmd (commandLower cmd2) && !ctx.email_list.isEmpty) = false)
    (h24 : isDraftCmd (commandLower cmd2) = true)
    (h25 : explicitDraftNum (commandLower cmd2) = some p2)
    (h26 : (p2 == 0) = false)
    (h27 : rget ctx.read_emails (toString p2) = some data2)
    (_hne : p1 ≠ p2) :
    ((process_email_command env2
        (process_email_command env1 ctx cmd1).ctx cmd2).ctx.pending_draft =
      some (buildDraft env2 (commandLower cmd2) (.num p2) data2)) ∧
    (buildDraft env2 (commandLower cmd2) (.num p2) data2).for_email_num = .num p2 ∧
    (process_email_command env1 ctx cmd1).ctx.pending_draft =
      some (buildDraft env1 (commandLower cmd1) (.num p1) data1) := by
  have s1 := draft_request_explicit env1 ctx cmd1 p1 data1 h11 h12 h13 h14 h15 h16 h17
  have hctx1 : (process_email_command env1 ctx cmd1).ctx =
      { ctx with
        pending_draft := some (buildDraft env1 (commandLower cmd1) (.num p1) data1) } := by
    rw [s1]
  refine ⟨?_, rfl, by rw [hctx1]⟩
  rw [hctx1]
  have s2 := draft_request_explicit env2
    { ctx with
      pending_draft := some (buildDraft env1 (commandLower cmd1) (.num p1) data1) }
    cmd2 p2 data2 h21 (by rw [h22]; rfl) h23 h24 h25 h26 h27
  rw [s2]

theorem c8_witness :
    rget c8Ctx.read_emails "1" = some readDict1 ∧
    rget c8Ctx.read_emails "2" = some readDict2 ∧
    ((process_email_command respondEnv
        (process_email_command respondEnv c8Ctx "draft reply email 1").ctx
        "draft reply email 2").ctx.pending_draft =
      some (buildDraft respondEnv (commandLower "draft reply email 2")
        (.num 2) readDict2)) ∧
    (buildDraft respondEnv (commandLower "draft reply email 2")
      (.num 2) readDict2).for_email_num = .num 2 :=
  ⟨rfl, rfl,
    (c8_theorem respondEnv respondEnv c8Ctx "draft reply email 1"
      "draft reply email 2" 1 2 readDict1 readDict2
      (by decide) (by decide) (by decide) (by decide) (by decide) (by decide) rfl
      (by decide) (by decide) (by decide) (by decide) (by decide) (by decide) rfl
      (by decide)).1,
    (c8_theorem respondEnv respondEnv c8Ctx "draft reply email 1"
      "draft reply email 2" 1 2 readDict1 readDict2
      (by decide) (by decide) (by decide) (by decide) (by decide) (by decide) rfl
      (by decide) (by decide) (by decide) (by decide) (by decide) (by decide) rfl
      (by decide)).2.1⟩

/-- C9: with at least two emails loaded, "read email number 2" and
"read email two" (normalized to "read email 2") are processed identically:
same response, same session update, same tool calls — both resolve to
reading list position 2. -/
theorem c9_theorem (env : Env) (ctx : Ctx) (h : 2 ≤ ctx.email_list.length) :
    process_email_command env ctx "read email number 2" =
    process_email_command env ctx "read email two" := by
  have hE : ctx.email_list.isEmpty = false := by
    cases hl : ctx.email_list with
    | nil => rw [hl] at h; simp at h
    | cons a t => rfl
  have hL1 : (ctx.email_list.length == 1) = false := by
    have h1 : ctx.email_list.length ≠ 1 := by omega
    simp [h1]
  have hlt : 2 - 1 < ctx.email_list.length := by omega
  rw [read_multi_path env ctx "read email number 2" 2 (by decide)
        (by rw [show containsSub (commandLower "read email number 2") "cancel" = false
          from by decide]; rfl)
        (by decide) hE (by rw [hL1]; rfl) (by decide) (by decide) hlt,
      read_multi_path env ctx "read email two" 2 (by decide)
        (by rw [show containsSub (commandLower "read email two") "cancel" = false
          from by decide]; rfl)
        (by decide) hE (by rw [hL1]; rfl) (by decide) (by decide) hlt]

theorem c9_witness :
    2 ≤ c7Ctx.email_list.length ∧
    process_email_command respondEnv c7Ctx "read email number 2" =
    process_email_command respondEnv c7Ctx "read email two" :=
  ⟨by decide, c9_theorem respondEnv c7Ctx (by decide)⟩

/-- C10: the formatted listing enumerates exactly min(L, 10) entries, yet a
read request resolving position n succeeds for every 1 ≤ n ≤ L: the
account-routed read tool is invoked on the id of the n-th stored entry,
including positions beyond the ten displayed. -/
theorem c10_theorem (env : Env) (ctx : Ctx) (command : String) (n : Nat)
    (eid : String)
    (h1 : isSendCmd (commandLower command) = false)
    (h2 : (containsSub (commandLower command) "cancel" && ctx.pending_draft.isSome) = false)
    (h3 : isReadCmd (commandLower command) = true)
    (h4 : ctx.email_list.isEmpty = false)
    (h5 : (ctx.email_list.length == 1 &&
        (isSingleReadTrigger (commandLower command) ||
          (firstDigitToken (commandLower command)).isNone)) = false)
    (h6 : readNumberOf (commandLower command) = some n)
    (h7 : 1 ≤ n) (h8 : n ≤ ctx.email_list.length)
    (h9 : dget (ctx.email_list.getD (n - 1) []) "id" = some eid) :
    (process_email_command env ctx command).calls =
      [(readToolFor eid, [("email_id", eid)])] ∧
    (listEntries ctx.email_list).length = min ctx.email_list.length 10 := by
  constructor
  · have h70 : (n == 0) = false := by simp; omega
    have hlt : n - 1 < ctx.email_list.length := by omega
    rw [read_multi_path env ctx command n h1 h2 h3 h4 h5 h6 h70 hlt]
    unfold performRead
    rw [h9]
    dsimp only
    cases hr : env.callTool (readToolFor eid) [("email_id", eid)] with
    | pydict d => by_cases he : hasKey d "error" = true <;> simp [he]
    | pylist xs => rfl
  · unfold listEntries
    rw [List.length_map, List.enum_length, List.length_take]
    omega

theorem c10_witness :
    c10Ctx.email_list.length = 12 ∧
    readNumberOf (commandLower "read email number 11") = some 11 ∧
    (process_email_command respondEnv c10Ctx "read email number 11").calls =
      [("read_gmail_email", [("email_id", "id10")])] ∧
    (listEntries c10Ctx.email_list).length = min c10Ctx.email_list.length 10 := by
  have h := c10_theorem respondEnv c10Ctx "read email number 11" 11 "id10"
    (by decide) (by decide) (by decide) (by decide) (by decide) (by decide)
    (by decide) (by decide) (by decide)
  exact ⟨by decide, by decide, h.1, h.2⟩

end EmailBot
